import Mathlib

/-
  Verification of the arke Discord client library (src/arke).

  Shallow embedding of the parts of the code that the specification
  claims speak about: the gateway shard state machine (gateway/shard.py),
  the shard manager (gateway/manager.py), the window ratelimiter
  (internal/ratelimit.py), the REST ratelimit bucket (http/ratelimit.py),
  the HTTP error flattening (http/errors.py) and the raw event
  dispatcher (utils/dispatcher/raw.py).

  Python floats are modelled as rationals, Python ints as Lean Int/Nat,
  Python None as Option.none, and exceptions as explicit outcome
  constructors.  Asynchronous code is modelled by explicit state passing
  and, for the ratelimiter, by a labelled transition system whose events
  are the atomic segments of the coroutines between await points.
-/

namespace Arke

/-! ## Gateway shard (src/arke/gateway/shard.py)

The mutable attributes of class Shard that the claims mention.
Task handles and the pending heartbeat-ACK future are modelled as
booleans (present or absent); the WebSocket is an abstract handle. -/

structure ShardState where
  ws : Option Nat
  connection_task : Bool
  heartbeat_task : Bool
  heartbeat_ack_received : Bool
  resume_url : Option String
  session_id : Option String
  sequence : Option Int
  should_reconnect : Bool
deriving DecidableEq

/-- Result of Shard.disconnect: either the method returned, having closed
the socket with the given close code, or the assert at line 115
(`assert self._ws is not None`) fired because the shard was already
closed.  The assert runs before any mutation, so no state accompanies
the assertion outcome. -/
inductive DisconnectResult where
  | ok (st : ShardState) (code : Nat)
  | assertionError
deriving DecidableEq

/-- Shard.disconnect (shard.py lines 114-141).  Cancels and clears the
connection task, heartbeat task and pending ACK future; when
keep_session it closes the socket with code 999, otherwise it calls
ws.close() (aiohttp default close code 1000) and clears resume_url,
session_id and sequence; finally the WebSocket is nulled out. -/
def Shard.disconnect (st : ShardState) (keep_session : Bool) : DisconnectResult :=
  match st.ws with
  | none => .assertionError
  | some _ =>
    let st1 : ShardState :=
      { st with connection_task := false, heartbeat_task := false,
                heartbeat_ack_received := false }
    if keep_session then
      .ok { st1 with ws := none } 999
    else
      .ok { st1 with ws := none, resume_url := none, session_id := none,
                     sequence := none } 1000

/-- Shard.connect (shard.py lines 101-112): creates a fresh decompressor
(not modelled), opens a WebSocket (to resume_url when a session exists,
else to the default gateway URL; the session fields are not changed
either way), dispatches a synthetic connect event and spawns the
connection-read task.  The parameter newWs is the handle of the newly
opened socket. -/
def Shard.connect (st : ShardState) (newWs : Nat) : ShardState :=
  { st with ws := some newWs, connection_task := true }

/-- Observable outcome of Shard._handle_close_code: the shard state after
the handler returns (or at the point an exception escapes), the close
code that was passed to ws.close (none if disconnect never ran or
asserted), the name of the exception raised (none if the handler
returned normally), and whether connect() was called again. -/
structure CloseCodeOutcome where
  st : ShardState
  closedWith : Option Nat
  raised : Option String
  reconnected : Bool
deriving DecidableEq

/-- Branch shape `await self.disconnect(keep); await self.connect()`
used by the handlers for transport codes, 4000, 4003, 4007, 4008, 4009. -/
def Shard.disconnectThenReconnect (st : ShardState) (keep : Bool) (newWs : Nat) :
    CloseCodeOutcome :=
  match Shard.disconnect st keep with
  | .ok st2 c =>
    { st := Shard.connect st2 newWs, closedWith := some c, raised := none,
      reconnected := true }
  | .assertionError =>
    { st := st, closedWith := none, raised := some "AssertionError",
      reconnected := false }

/-- Branch shape `await self.disconnect(); raise err` used by the fatal
close codes 4004, 4010, 4011, 4012, 4013, 4014 and the default branch. -/
def Shard.disconnectThenRaise (st : ShardState) (err : String) : CloseCodeOutcome :=
  match Shard.disconnect st false with
  | .ok st2 c =>
    { st := st2, closedWith := some c, raised := some err, reconnected := false }
  | .assertionError =>
    { st := st, closedWith := none, raised := some "AssertionError",
      reconnected := false }

/-- Branch shape used by close codes 4001, 4002 and 4005 (shard.py lines
184-189 and the analogous branches):
`await self.disconnect(keep_session=self.should_reconnect)` followed by
`if self.should_reconnect: await self.connect()`. -/
def Shard.disconnectPerReconnectFlag (st : ShardState) (newWs : Nat) :
    CloseCodeOutcome :=
  match Shard.disconnect st st.should_reconnect with
  | .ok st2 c =>
    if st2.should_reconnect then
      { st := Shard.connect st2 newWs, closedWith := some c, raised := none,
        reconnected := true }
    else
      { st := st2, closedWith := some c, raised := none, reconnected := false }
  | .assertionError =>
    { st := st, closedWith := none, raised := some "AssertionError",
      reconnected := false }

/-- Shard._handle_close_code (shard.py lines 175-237).  The 4008 branch
additionally sleeps for the send ratelimiter period before
disconnecting; the sleep has no effect on the modelled state. -/
def Shard.handle_close_code (st : ShardState) (code : Nat) (newWs : Nat) :
    CloseCodeOutcome :=
  if code < 2000 then Shard.disconnectThenReconnect st false newWs
  else if code = 4000 then Shard.disconnectThenReconnect st true newWs
  else if code = 4001 then Shard.disconnectPerReconnectFlag st newWs
  else if code = 4002 then Shard.disconnectPerReconnectFlag st newWs
  else if code = 4003 then Shard.disconnectThenReconnect st false newWs
  else if code = 4004 then Shard.disconnectThenRaise st "AuthenticationError"
  else if code = 4005 then Shard.disconnectPerReconnectFlag st newWs
  else if code = 4007 then Shard.disconnectThenReconnect st false newWs
  else if code = 4008 then Shard.disconnectThenReconnect st true newWs
  else if code = 4009 then Shard.disconnectThenReconnect st false newWs
  else if code = 4010 then Shard.disconnectThenRaise st "ShardingError"
  else if code = 4011 then Shard.disconnectThenRaise st "ShardingError"
  else if code = 4012 then Shard.disconnectThenRaise st "GatewayException"
  else if code = 4013 then Shard.disconnectThenRaise st "IntentError"
  else if code = 4014 then Shard.disconnectThenRaise st "IntentError"
  else Shard.disconnectThenRaise st "GatewayException"

/-- A decoded gateway payload as seen by Shard._process_raw_msg after
JSON decoding.  The field s models `json.get("s")`: it is none both
when the key is absent and when the key holds JSON null, exactly as
Python dict.get returns None in both cases. -/
structure GatewayEvent where
  op : Int
  s : Option Int
  t : Option String
deriving DecidableEq

/-- The state effect of Shard._process_raw_msg (shard.py line 93):
`self.sequence = json.get("s")` is an unconditional assignment, so the
stored sequence is replaced by the value of the s field, becoming none
whenever s is absent or null.  Frame decompression and JSON decoding
(lines 81-92) happen before this assignment and do not touch the shard
state. -/
def Shard.processMsg (st : ShardState) (json : GatewayEvent) : ShardState :=
  { st with sequence := json.s }

/-! ## Shard manager (src/arke/gateway/manager.py)

Shards are identified by a numeric id of the underlying Shard object;
next_id is the allocator for fresh shard objects.  rescale is modelled
as a single function from the pre-state to an outcome recording the
post-state, the ordered list of shard objects on which disconnect()
was awaited, and the exception (if any) that escaped the call. -/

structure ManagerState where
  current_shards : List Nat
  pending_shards : List Nat
  pending_shard_count : Option Nat
  max_concurrency : Option Nat
  next_id : Nat
deriving DecidableEq

structure RescaleOutcome where
  st : ManagerState
  disconnected : List Nat
  error : Option String
deriving DecidableEq

/-- Manager.rescale (manager.py lines 124-160).  The parameter
connect_ok says whether the gathered shard.connect() calls all succeed.
Key control flow taken from the source: the `try ... finally` around the
gather means the finally block (disconnect every pending shard, clear
the pending flag and the pending list) runs on success as well as on
failure; on success the code then disconnects all current shards,
clears the current list and assigns `current_shards = pending_shards`,
but the pending list was already cleared by the finally block, so the
assignment installs an empty list.  On failure, the exception from the
gather propagates after the finally block and the statements below it
never run.  The failure branch abstracts from which particular connect
failed: every pending shard has disconnect awaited on it by the finally
block, in list order. -/
def Manager.rescale (st : ManagerState) (count : Nat) (connect_ok : Bool) :
    RescaleOutcome :=
  if st.pending_shard_count.isSome then
    { st := st, disconnected := [],
      error := some "RuntimeError: Shards are currently rescaling." }
  else if st.max_concurrency.isNone then
    { st := st, disconnected := [],
      error := some "RuntimeError: You need to start the manager via Manager.start." }
  else
    let newShards := (List.range count).map (fun i => st.next_id + i)
    let st1 : ManagerState :=
      { st with pending_shard_count := some count, pending_shards := newShards,
                next_id := st.next_id + count }
    if connect_ok then
      let disc1 := st1.pending_shards
      let st2 : ManagerState :=
        { st1 with pending_shard_count := none, pending_shards := [] }
      let disc2 := st2.current_shards
      let st3 : ManagerState :=
        { st2 with current_shards := st2.pending_shards, pending_shards := [],
                   pending_shard_count := none }
      { st := st3, disconnected := disc1 ++ disc2, error := none }
    else
      let disc1 := st1.pending_shards
      let st2 : ManagerState :=
        { st1 with pending_shard_count := none, pending_shards := [] }
      { st := st2, disconnected := disc1, error := some "GatewayConnectError" }

/-! ## Window ratelimiter TimePer (src/arke/internal/ratelimit.py)

TimePer.acquire suspends at `await future`; the reset timer callback
runs atomically on the event loop.  The embedding is a labelled
transition system whose events are the atomic segments of that code:

  * acquireFast - a call to acquire() that finds remaining nonzero and
    runs to completion (lines 80 test false, 92-97);
  * acquireEnqueue f - a call that finds remaining == 0 and enqueues a
    fresh future f on self._pending (lines 80-83), then suspends.  The
    queue was built as queue.Queue(limit): put_nowait raises queue.Full
    when the queue already holds limit items (and a Python Queue with
    maxsize 0 is unbounded), so the event is only enabled below
    capacity;
  * cancel f - the CancelledError branch (lines 87-90), removing the
    future from the queue;
  * reset - the timer callback _reset (lines 99-107): clears the timer
    flag, restores remaining to limit and resolves every queued future
    in FIFO order (the woken futures resume later, as separate events);
  * resume f - the continuation of a woken waiter after `await future`
    (lines 92-97): it decrements remaining without re-checking it and
    re-arms the timer flag.

Futures are identified by numeric ids; an id may not be enqueued while
it is already queued or woken (each Python future is a fresh object). -/

structure TimePerState where
  limit : Nat
  remaining : Int
  pending : List Nat
  woken : List Nat
  pending_reset : Bool
deriving DecidableEq

/-- Initial state of TimePer(limit, per): remaining = limit, empty
queue, no timer armed (the period length per does not influence the
transition structure). -/
def TimePer.init (limit : Nat) : TimePerState :=
  { limit := limit, remaining := (limit : Int), pending := [], woken := [],
    pending_reset := false }

inductive TPEvent where
  | acquireFast
  | acquireEnqueue (f : Nat)
  | cancel (f : Nat)
  | reset
  | resume (f : Nat)
deriving DecidableEq

/-- One atomic step of the TimePer transition system; none means the
event is not enabled in the given state (or raises, in the case of an
over-capacity put_nowait). -/
def TimePer.step (s : TimePerState) : TPEvent → Option TimePerState
  | .acquireFast =>
    if s.remaining = 0 then none
    else some { s with remaining := s.remaining - 1, pending_reset := true }
  | .acquireEnqueue f =>
    if s.remaining = 0 ∧ (s.limit = 0 ∨ s.pending.length < s.limit)
        ∧ f ∉ s.pending ∧ f ∉ s.woken then
      some { s with pending := s.pending ++ [f] }
    else none
  | .cancel f =>
    if f ∈ s.pending then some { s with pending := s.pending.erase f } else none
  | .reset =>
    if s.pending_reset then
      some { s with pending_reset := false, remaining := (s.limit : Int),
                    woken := s.woken ++ s.pending, pending := [] }
    else none
  | .resume f =>
    if f ∈ s.woken then
      some { s with woken := s.woken.erase f, remaining := s.remaining - 1,
                    pending_reset := true }
    else none

/-- Run a sequence of events from a state. -/
def TimePer.run (s : TimePerState) (evs : List TPEvent) : Option TimePerState :=
  evs.foldl (fun acc e => acc.bind (fun st => TimePer.step st e)) (some s)

/-! ## REST ratelimit bucket (src/arke/http/ratelimit.py)

Python floats are modelled as rationals.  The response headers that
Bucket.update_from reads are collected in a record; X-RateLimit-Bucket
and X-RateLimit-Remaining may be absent (headers.get), while
X-RateLimit-Limit, X-RateLimit-Reset and X-RateLimit-Reset-After are
read by direct indexing in the scenarios the claims quantify over, so
they are required fields here.  X-RateLimit-Global is read with
headers.get(..., False) and only its truthiness matters. -/

structure RLHeaders where
  x_bucket : Option String
  x_global : Bool
  x_limit : Int
  x_remaining : Option Int
  x_reset : Rat
  x_reset_after : Rat
deriving DecidableEq

structure HBucket where
  lag : Rat
  bucket : String
  reset_after : Rat
  limit : Int
  remaining : Int
  reset : Option Rat
  enabled : Bool
deriving DecidableEq

/-- Bucket.__init__ (http/ratelimit.py lines 42-51), with the lag
argument (default 0.2 = 1/5). -/
def HBucket.init (lag : Rat) : HBucket :=
  { lag := lag, bucket := "", reset_after := 0, limit := 1, remaining := 1,
    reset := none, enabled := true }

/-- Lines 78-79: adopt the hash on first sight. -/
def HBucket.updHash (b : HBucket) (xb : String) : HBucket :=
  if b.bucket = "" then { b with bucket := xb } else b

/-- Lines 87-89: update limit from X-RateLimit-Limit when different. -/
def HBucket.updLimit (b : HBucket) (x : Int) : HBucket :=
  if x ≠ b.limit then { b with limit := x } else b

/-- Lines 91-93: update remaining only when the new value is lower or
the current is zero (X-RateLimit-Remaining defaults to 1 when absent). -/
def HBucket.updRemaining (b : HBucket) (xr : Int) : HBucket :=
  if xr < b.remaining ∨ b.remaining = 0 then { b with remaining := xr } else b

/-- Lines 96-100: update the absolute reset time when different. -/
def HBucket.updReset (b : HBucket) (xr : Rat) : HBucket :=
  if some xr ≠ b.reset then { b with reset := some xr } else b

/-- Lines 102-105: when the raw X-RateLimit-Reset-After exceeds the
stored reset_after, store the raw value and then add the lag to it. -/
def HBucket.updResetAfter (b : HBucket) (x : Rat) : HBucket :=
  if x > b.reset_after then { b with reset_after := x + b.lag } else b

/-- Bucket.update_from (http/ratelimit.py lines 59-105), following the
source line by line: skip when disabled; disable and return when
X-RateLimit-Bucket is missing; adopt the hash on first sight; return
without touching the counters when X-RateLimit-Global is truthy;
otherwise run the limit, remaining, reset and reset_after updates in
source order. -/
def HBucket.update_from (b : HBucket) (h : RLHeaders) : HBucket :=
  if !b.enabled then b
  else
    match h.x_bucket with
    | none => { b with enabled := false }
    | some xb =>
      let b1 := HBucket.updHash b xb
      if h.x_global then b1
      else
        HBucket.updResetAfter
          (HBucket.updReset
            (HBucket.updRemaining (HBucket.updLimit b1 h.x_limit)
              (h.x_remaining.getD 1))
            h.x_reset)
          h.x_reset_after

/-- Fold a list of responses through update_from, oldest first. -/
def HBucket.applyUpdates (b : HBucket) (hs : List RLHeaders) : HBucket :=
  hs.foldl HBucket.update_from b

/-- A response carrying ratelimit headers, not globally flagged, with a
given raw X-RateLimit-Reset-After value (the other numeric headers are
fixed benign values, which do not interact with reset_after). -/
def RLHeaders.simple (x : Rat) : RLHeaders :=
  { x_bucket := some "hash", x_global := false, x_limit := 1,
    x_remaining := some 1, x_reset := 0, x_reset_after := x }

/-! ## HTTP error flattening (src/arke/http/errors.py)

A fragment of JSON sufficient for Discord error payloads. -/

inductive EJson where
  | str (s : String)
  | obj (fields : List (String × EJson))
  | arr (elems : List EJson)

/-- Python dict lookup on an association list (first binding wins). -/
def assocLookup (m : List (String × EJson)) (k : String) : Option EJson :=
  match m.find? (fun p => p.1 = k) with
  | some p => some p.2
  | none => none

/-- Lookup in a flattened string-valued mapping. -/
def assocLookupStr (m : List (String × String)) (k : String) : Option String :=
  match m.find? (fun p => p.1 = k) with
  | some p => some p.2
  | none => none

/-- Python dict assignment `ret[k] = v` on an association list that
preserves insertion order: an existing binding is overwritten in place,
a new key is appended. -/
def assocInsert (m : List (String × String)) (k v : String) :
    List (String × String) :=
  if m.any (fun p => p.1 = k) then
    m.map (fun p => if p.1 = k then (k, v) else p)
  else m ++ [(k, v)]

/-- Python `ret.update(sub)`: fold the bindings of sub into ret. -/
def assocUpdate (m sub : List (String × String)) : List (String × String) :=
  sub.foldl (fun acc p => assocInsert acc p.1 p.2) m

/-- The list comprehension `[v2["message"] for v2 in v]` followed by
`"\n".join(...)`: every element must be an object whose message field
is a string, otherwise Python raises (modelled as none). -/
def joinMessages (l : List EJson) : Option String :=
  let msgs := l.mapM (fun v2 =>
    match v2 with
    | .obj fields =>
      match assocLookup fields "message" with
      | some (.str s) => some s
      | _ => none
    | _ => none)
  msgs.map (fun ms => String.intercalate "\n" ms)

/-- _flatten_error_dict (http/errors.py lines 16-27).  For each binding
(k, v) of d, with full_key = parent plus the separator "/" plus k: a
list value under the key "_errors" stores the joined messages at the
key parent; an object value is flattened recursively under full_key
and merged into the result; any other value is skipped.  none models a
raised exception from the message extraction. -/
def flattenErrorDict : List (String × EJson) → String → List (String × String) →
    Option (List (String × String))
  | [], _, ret => some ret
  | (k, v) :: rest, parent, ret =>
    let fullKey := parent ++ "/" ++ k
    match v with
    | .arr elems =>
      if k = "_errors" then
        match joinMessages elems with
        | some s => flattenErrorDict rest parent (assocInsert ret parent s)
        | none => none
      else flattenErrorDict rest parent ret
    | .obj fields =>
      match flattenErrorDict fields fullKey [] with
      | some sub => flattenErrorDict rest parent (assocUpdate ret sub)
      | none => none
    | .str _ => flattenErrorDict rest parent ret

/-- Top-level call as made by HTTPException.__init__ (line 46):
_flatten_error_dict(errors) with the default parent, the empty string. -/
def flattenErrors (d : List (String × EJson)) : Option (List (String × String)) :=
  flattenErrorDict d "" []

/-! ## Raw event dispatcher (src/arke/utils/dispatcher/raw.py)

The dispatcher is generic in the event-key type; the shard instantiates
it at int (opcodes) and str (dispatch names).  Here keys are Int and
payloads (the metadata argument of dispatch) are String, which keeps the
key and the payload distinguishable, as they are in the running program
where one is the event key object and the other the event data object.
Listeners and handlers are identified by numeric ids; waiter predicates
are actual functions (none modelling a predicate that raises). -/

/-- The dynamically typed value stored into a waiter future by
dispatch: the code may store the event key or the metadata object. -/
inductive DispatchValue where
  | key (k : Int)
  | payload (p : String)
deriving DecidableEq

inductive FutureResult where
  | result (v : DispatchValue)
  | exception
deriving DecidableEq

structure Waiter where
  fid : Nat
  cancelled : Bool
  check : String → Option Bool

/-- The waiter loop of RawDispatcher.dispatch (raw.py lines 206-219),
including its Python iteration semantics: `for i, (check, future) in
enumerate(wait_fors)` walks a live cursor over the list while the body
pops index i each iteration, so after a pop the cursor lands one past
the popped slot (skipping the element that shifted into it).  The body:
a cancelled future is popped silently; otherwise the check is evaluated
on the metadata - if it raises, the future gets that exception; if it
returns truthy, the future gets `set_result(event)`, the event KEY
object (line 217); in all cases the waiter is popped.  Returns the
waiters left in the list and the future completions in order. -/
def dispatchWaitersGo (l : List Waiter) (i : Nat) (event : Int) (metadata : String)
    (acc : List (Nat × FutureResult)) : List Waiter × List (Nat × FutureResult) :=
  if h : i < l.length then
    let w := l.get ⟨i, h⟩
    let rest := l.eraseIdx i
    if w.cancelled then
      dispatchWaitersGo rest (i + 1) event metadata acc
    else
      match w.check metadata with
      | none => dispatchWaitersGo rest (i + 1) event metadata
          ((w.fid, FutureResult.exception) :: acc)
      | some true => dispatchWaitersGo rest (i + 1) event metadata
          ((w.fid, FutureResult.result (DispatchValue.key event)) :: acc)
      | some false => dispatchWaitersGo rest (i + 1) event metadata acc
  else (l, acc.reverse)
termination_by l.length - i
decreasing_by
  all_goals simp [List.length_eraseIdx, h]
  all_goals omega

def dispatchWaiters (l : List Waiter) (event : Int) (metadata : String) :
    List Waiter × List (Nat × FutureResult) :=
  dispatchWaitersGo l 0 event metadata []

/-- Observable outcome of RawDispatcher.dispatch for one event: the
completions applied to waiter futures, the fids of waiters still
registered under the key afterwards, and the ids of the listener and
handler coroutines spawned as tasks, in spawn order (listeners first,
then global handlers, as in raw.py lines 223-229). -/
structure DispatchResult where
  completions : List (Nat × FutureResult)
  remaining_waiters : List Nat
  spawned : List Nat
deriving DecidableEq

/-- RawDispatcher.dispatch (raw.py lines 175-231) restricted to one
event key: listeners is the list registered under the key, handlers the
global handler list, wait_fors the waiter list under the key.  When all
three are empty the method returns immediately (line 192). -/
def RawDispatcher.dispatch (listeners handlers : List Nat) (wait_fors : List Waiter)
    (event : Int) (metadata : String) : DispatchResult :=
  if listeners.isEmpty ∧ handlers.isEmpty ∧ wait_fors.isEmpty then
    { completions := [], remaining_waiters := [], spawned := [] }
  else
    let pr := dispatchWaiters wait_fors event metadata
    { completions := pr.2, remaining_waiters := pr.1.map (fun w => w.fid),
      spawned := listeners ++ handlers }

/-- RawDispatcher.remove_event_handler (raw.py lines 97-116).  All
handler ids stand for coroutine functions, so the iscoroutinefunction
guard passes.  The source checks membership, raising ValueError for an
unknown handler, and then executes
`self._event_handlers.append(handler)` (line 114) - an append, not a
removal.  The ok value is the handler list after the call. -/
def RawDispatcher.remove_event_handler (handlers : List Nat) (h : Nat) :
    Except String (List Nat) :=
  if h ∈ handlers then Except.ok (handlers ++ [h])
  else Except.error "ValueError: Handler has not been added."

/-! ## Theorems -/

/-- Claim C9: for every connected shard, disconnect(keep_session=true)
closes the socket with code 999 and leaves session_id, resume_url and
sequence unchanged, while disconnect(keep_session=false) closes with
code 1000 and sets all three fields to null. -/
theorem disconnect_keep_session_frame (st : ShardState) (w : Nat)
    (h : st.ws = some w) :
    (∃ st2, Shard.disconnect st true = .ok st2 999 ∧
      st2.session_id = st.session_id ∧ st2.resume_url = st.resume_url ∧
      st2.sequence = st.sequence ∧ st2.ws = none) ∧
    (∃ st3, Shard.disconnect st false = .ok st3 1000 ∧
      st3.session_id = none ∧ st3.resume_url = none ∧
      st3.sequence = none ∧ st3.ws = none) := by
  obtain ⟨ws, ct, ht, ha, ru, si, sq, sr⟩ := st
  change ws = some w at h
  subst h
  exact ⟨⟨_, rfl, rfl, rfl, rfl, rfl⟩, ⟨_, rfl, rfl, rfl, rfl, rfl⟩⟩

/-- Witness for C9 at a concrete connected shard. -/
theorem disconnect_keep_session_frame_witness :
    (∃ st2, Shard.disconnect
        { ws := some 7, connection_task := true, heartbeat_task := true,
          heartbeat_ack_received := true, resume_url := some "wss://resume",
          session_id := some "S", sequence := some 42, should_reconnect := true }
        true = .ok st2 999 ∧
      st2.session_id = some "S" ∧ st2.resume_url = some "wss://resume" ∧
      st2.sequence = some 42 ∧ st2.ws = none) ∧
    (∃ st3, Shard.disconnect
        { ws := some 7, connection_task := true, heartbeat_task := true,
          heartbeat_ack_received := true, resume_url := some "wss://resume",
          session_id := some "S", sequence := some 42, should_reconnect := true }
        false = .ok st3 1000 ∧
      st3.session_id = none ∧ st3.resume_url = none ∧
      st3.sequence = none ∧ st3.ws = none) :=
  disconnect_keep_session_frame
    { ws := some 7, connection_task := true, heartbeat_task := true,
      heartbeat_ack_received := true, resume_url := some "wss://resume",
      session_id := some "S", sequence := some 42, should_reconnect := true }
    7 rfl

/-- Claim C8 counterexample: on a shard whose WebSocket is absent,
disconnect is not a no-op that raises no error - the assert at shard.py
line 115 fires, so the call ends in an AssertionError instead of
returning. -/
theorem disconnect_closed_shard_cex :
    Shard.disconnect
      { ws := none, connection_task := false, heartbeat_task := false,
        heartbeat_ack_received := false, resume_url := some "wss://resume",
        session_id := some "S", sequence := some 42, should_reconnect := true }
      false = .assertionError := rfl

/-- Claim C8 (amended): calling Shard.disconnect on a shard whose
WebSocket is absent raises AssertionError for either value of
keep_session; the assert runs before any mutation, so the shard state
is untouched at the point the exception propagates. -/
theorem disconnect_closed_shard_asserts (st : ShardState) (k : Bool)
    (h : st.ws = none) :
    Shard.disconnect st k = .assertionError := by
  obtain ⟨ws, ct, ht, ha, ru, si, sq, sr⟩ := st
  change ws = none at h
  subst h
  cases k <;> rfl

/-- Witness for the amended C8 at a concrete closed shard. -/
theorem disconnect_closed_shard_asserts_witness :
    Shard.disconnect
      { ws := none, connection_task := false, heartbeat_task := false,
        heartbeat_ack_received := false, resume_url := none,
        session_id := some "S", sequence := some 3, should_reconnect := false }
      true = .assertionError :=
  disconnect_closed_shard_asserts
    { ws := none, connection_task := false, heartbeat_task := false,
      heartbeat_ack_received := false, resume_url := none,
      session_id := some "S", sequence := some 3, should_reconnect := false }
    true rfl

/-- Claim C6 counterexample: a connected shard with should_reconnect
true and an established session receives close code 4001.  The claim
says the session is reset (session_id, resume_url and sequence
cleared); in the code the branch runs
disconnect(keep_session=self.should_reconnect), that is keep_session =
true, so all three session fields survive. -/
theorem close_4001_keeps_session_cex :
    (Shard.handle_close_code
      { ws := some 7, connection_task := true, heartbeat_task := true,
        heartbeat_ack_received := true, resume_url := some "wss://resume",
        session_id := some "S", sequence := some 42, should_reconnect := true }
      4001 9).st.session_id = some "S" ∧
    (Shard.handle_close_code
      { ws := some 7, connection_task := true, heartbeat_task := true,
        heartbeat_ack_received := true, resume_url := some "wss://resume",
        session_id := some "S", sequence := some 42, should_reconnect := true }
      4001 9).st.sequence = some 42 ∧
    some "S" ≠ (none : Option String) := ⟨rfl, rfl, by decide⟩

/-- Claim C6 (amended): on close code 4001 with should_reconnect true
the shard disconnects KEEPING its session - the socket closes with code
999 and session_id, resume_url and sequence are preserved - and then
reconnects; with should_reconnect false it disconnects permanently with
code 1000 and the session cleared.  Neither branch raises. -/
theorem close_4001_per_reconnect_flag (st : ShardState) (w n : Nat)
    (h : st.ws = some w) :
    (st.should_reconnect = true →
      (Shard.handle_close_code st 4001 n).closedWith = some 999 ∧
      (Shard.handle_close_code st 4001 n).raised = none ∧
      (Shard.handle_close_code st 4001 n).reconnected = true ∧
      (Shard.handle_close_code st 4001 n).st.session_id = st.session_id ∧
      (Shard.handle_close_code st 4001 n).st.resume_url = st.resume_url ∧
      (Shard.handle_close_code st 4001 n).st.sequence = st.sequence ∧
      (Shard.handle_close_code st 4001 n).st.ws = some n) ∧
    (st.should_reconnect = false →
      (Shard.handle_close_code st 4001 n).closedWith = some 1000 ∧
      (Shard.handle_close_code st 4001 n).raised = none ∧
      (Shard.handle_close_code st 4001 n).reconnected = false ∧
      (Shard.handle_close_code st 4001 n).st.session_id = none ∧
      (Shard.handle_close_code st 4001 n).st.resume_url = none ∧
      (Shard.handle_close_code st 4001 n).st.sequence = none ∧
      (Shard.handle_close_code st 4001 n).st.ws = none) := by
  obtain ⟨ws, ct, ht, ha, ru, si, sq, sr⟩ := st
  change ws = some w at h
  subst h
  cases sr
  · exact ⟨fun hsr => by simp at hsr,
           fun _ => ⟨rfl, rfl, rfl, rfl, rfl, rfl, rfl⟩⟩
  · exact ⟨fun _ => ⟨rfl, rfl, rfl, rfl, rfl, rfl, rfl⟩,
           fun hsr => by simp at hsr⟩

/-- Witness for the amended C6 at a concrete connected shard with
should_reconnect true. -/
theorem close_4001_per_reconnect_flag_witness :
    ((true : Bool) = true →
      (Shard.handle_close_code
        { ws := some 7, connection_task := true, heartbeat_task := true,
          heartbeat_ack_received := true, resume_url := some "wss://resume",
          session_id := some "S", sequence := some 42, should_reconnect := true }
        4001 9).closedWith = some 999 ∧
      (Shard.handle_close_code
        { ws := some 7, connection_task := true, heartbeat_task := true,
          heartbeat_ack_received := true, resume_url := some "wss://resume",
          session_id := some "S", sequence := some 42, should_reconnect := true }
        4001 9).raised = none ∧
      (Shard.handle_close_code
        { ws := some 7, connection_task := true, heartbeat_task := true,
          heartbeat_ack_received := true, resume_url := some "wss://resume",
          session_id := some "S", sequence := some 42, should_reconnect := true }
        4001 9).reconnected = true ∧
      (Shard.handle_close_code
        { ws := some 7, connection_task := true, heartbeat_task := true,
          heartbeat_ack_received := true, resume_url := some "wss://resume",
          session_id := some "S", sequence := some 42, should_reconnect := true }
        4001 9).st.session_id = some "S" ∧
      (Shard.handle_close_code
        { ws := some 7, connection_task := true, heartbeat_task := true,
          heartbeat_ack_received := true, resume_url := some "wss://resume",
          session_id := some "S", sequence := some 42, should_reconnect := true }
        4001 9).st.resume_url = some "wss://resume" ∧
      (Shard.handle_close_code
        { ws := some 7, connection_task := true, heartbeat_task := true,
          heartbeat_ack_received := true, resume_url := some "wss://resume",
          session_id := some "S", sequence := some 42, should_reconnect := true }
        4001 9).st.sequence = some 42 ∧
      (Shard.handle_close_code
        { ws := some 7, connection_task := true, heartbeat_task := true,
          heartbeat_ack_received := true, resume_url := some "wss://resume",
          session_id := some "S", sequence := some 42, should_reconnect := true }
        4001 9).st.ws = some 9) ∧
    ((true : Bool) = false →
      (Shard.handle_close_code
        { ws := some 7, connection_task := true, heartbeat_task := true,
          heartbeat_ack_received := true, resume_url := some "wss://resume",
          session_id := some "S", sequence := some 42, should_reconnect := true }
        4001 9).closedWith = some 1000 ∧
      (Shard.handle_close_code
        { ws := some 7, connection_task := true, heartbeat_task := true,
          heartbeat_ack_received := true, resume_url := some "wss://resume",
          session_id := some "S", sequence := some 42, should_reconnect := true }
        4001 9).raised = none ∧
      (Shard.handle_close_code
        { ws := some 7, connection_task := true, heartbeat_task := true,
          heartbeat_ack_received := true, resume_url := some "wss://resume",
          session_id := some "S", sequence := some 42, should_reconnect := true }
        4001 9).reconnected = false ∧
      (Shard.handle_close_code
        { ws := some 7, connection_task := true, heartbeat_task := true,
          heartbeat_ack_received := true, resume_url := some "wss://resume",
          session_id := some "S", sequence := some 42, should_reconnect := true }
        4001 9).st.session_id = none ∧
      (Shard.handle_close_code
        { ws := some 7, connection_task := true, heartbeat_task := true,
          heartbeat_ack_received := true, resume_url := some "wss://resume",
          session_id := some "S", sequence := some 42, should_reconnect := true }
        4001 9).st.resume_url = none ∧
      (Shard.handle_close_code
        { ws := some 7, connection_task := true, heartbeat_task := true,
          heartbeat_ack_received := true, resume_url := some "wss://resume",
          session_id := some "S", sequence := some 42, should_reconnect := true }
        4001 9).st.sequence = none ∧
      (Shard.handle_close_code
        { ws := some 7, connection_task := true, heartbeat_task := true,
          heartbeat_ack_received := true, resume_url := some "wss://resume",
          session_id := some "S", sequence := some 42, should_reconnect := true }
        4001 9).st.ws = none) :=
  close_4001_per_reconnect_flag
    { ws := some 7, connection_task := true, heartbeat_task := true,
      heartbeat_ack_received := true, resume_url := some "wss://resume",
      session_id := some "S", sequence := some 42, should_reconnect := true }
    7 9 rfl

/-- Claim C4: the claim says the stored sequence is left unchanged when
the s field is absent or null.  In the code (shard.py line 93)
`self.sequence = json.get("s")` assigns unconditionally, so a message
without s - for example a HEARTBEAT_ACK - overwrites a stored sequence
of 5 with null.  This theorem evaluates the embedded assignment at that
failing input. -/
theorem process_msg_overwrites_sequence :
    (Shard.processMsg
      { ws := some 7, connection_task := true, heartbeat_task := true,
        heartbeat_ack_received := true, resume_url := some "wss://resume",
        session_id := some "S", sequence := some 5, should_reconnect := true }
      { op := 11, s := none, t := none }).sequence = none ∧
    (none : Option Int) ≠ some 5 := ⟨rfl, by decide⟩

/-- Claim C1: the claim says that when every connect succeeds, rescale
leaves the manager with exactly the new, still-connected shards.  In
the code the finally block after the gather runs on success as well:
it disconnects every pending (new) shard and clears the pending list,
so the subsequent swap installs an empty list.  Evaluated at a manager
with one current shard (id 100) rescaling to one new shard (id 200)
whose connect succeeds: the new shard 200 is disconnected, and the
current set ends empty rather than equal to the new set. -/
theorem rescale_success_disconnects_new_shards :
    Manager.rescale
      { current_shards := [100], pending_shards := [],
        pending_shard_count := none, max_concurrency := some 1,
        next_id := 200 } 1 true =
      { st := { current_shards := [], pending_shards := [],
                pending_shard_count := none, max_concurrency := some 1,
                next_id := 201 },
        disconnected := [200, 100], error := none } ∧
    (200 : Nat) ∈ [200, 100] ∧ ([] : List Nat) ≠ [200] := ⟨rfl, by decide, by decide⟩

/-- Claim C10: the claim says that after remove_event_handler(h) the
handler h is gone and a later dispatch no longer invokes it.  The code
of remove_event_handler (raw.py line 114) appends the handler instead
of removing it, so the registry [h] becomes [h, h] and the next
dispatch spawns h twice.  Evaluated with h = 0. -/
theorem remove_event_handler_appends :
    RawDispatcher.remove_event_handler [0] 0 = Except.ok [0, 0] ∧
    (RawDispatcher.dispatch [] [0, 0] [] 1 "payload").spawned = [0, 0] ∧
    (0 : Nat) ∈ [0, 0] := by
  refine ⟨rfl, ?_, by decide⟩
  simp [RawDispatcher.dispatch, dispatchWaiters, dispatchWaitersGo]

/-- Claim C3: the claim (and the docstring of wait_for) says a waiter
whose check accepts the dispatched payload has its promise completed
with that payload.  The code (raw.py line 217) runs
`future.set_result(event)`, storing the event KEY, not the metadata.
Evaluated at a single pending waiter under key 5 whose check always
returns true, dispatched with metadata "hello": the waiter is removed
(one-shot, as claimed) but its future holds the key 5, which is not
the payload "hello". -/
theorem dispatch_completes_with_key :
    RawDispatcher.dispatch [] []
      [{ fid := 0, cancelled := false, check := fun _ => some true }]
      5 "hello" =
      { completions := [(0, FutureResult.result (DispatchValue.key 5))],
        remaining_waiters := [], spawned := [] } ∧
    DispatchValue.key 5 ≠ DispatchValue.payload "hello" := by
  refine ⟨?_, by decide⟩
  simp [RawDispatcher.dispatch, dispatchWaiters, dispatchWaitersGo, List.isEmpty]

/-- Claim C7 counterexample: the claim says the body
errors = obj foo (obj _errors [obj message x]) flattens so that the
key "foo", with no leading separator, maps to "x".  The code computes
full_key as parent plus "/" plus k starting from the empty parent, so
the only key in the result is "/foo"; a lookup of "foo" finds
nothing. -/
theorem flatten_error_dict_foo_cex :
    (flattenErrors
      [("foo", EJson.obj [("_errors", EJson.arr [EJson.obj [("message", EJson.str "x")]])])]).map
      (fun m => assocLookupStr m "foo") = some none ∧
    ("/foo" : String) ≠ "foo" := by
  refine ⟨?_, by decide⟩
  simp only [flattenErrors, flattenErrorDict]
  decide

/-- Claim C7 (amended): flattening joins nested path segments with the
separator "/", and because the outermost call starts from the empty
parent string the example body flattens to a mapping whose single key
is "/foo" - it carries a leading separator - bound to "x". -/
theorem flatten_error_dict_foo :
    flattenErrors
      [("foo", EJson.obj [("_errors", EJson.arr [EJson.obj [("message", EJson.str "x")]])])] =
      some [("/foo", "x")] := by
  simp only [flattenErrors, flattenErrorDict]
  decide

theorem updHash_fields (b : HBucket) (xb : String) :
    (HBucket.updHash b xb).reset_after = b.reset_after ∧
    (HBucket.updHash b xb).enabled = b.enabled ∧
    (HBucket.updHash b xb).lag = b.lag := by
  unfold HBucket.updHash
  split_ifs <;> exact ⟨rfl, rfl, rfl⟩

theorem updLimit_fields (b : HBucket) (x : Int) :
    (HBucket.updLimit b x).reset_after = b.reset_after ∧
    (HBucket.updLimit b x).enabled = b.enabled ∧
    (HBucket.updLimit b x).lag = b.lag := by
  unfold HBucket.updLimit
  split_ifs <;> exact ⟨rfl, rfl, rfl⟩

theorem updRemaining_fields (b : HBucket) (xr : Int) :
    (HBucket.updRemaining b xr).reset_after = b.reset_after ∧
    (HBucket.updRemaining b xr).enabled = b.enabled ∧
    (HBucket.updRemaining b xr).lag = b.lag := by
  unfold HBucket.updRemaining
  split_ifs <;> exact ⟨rfl, rfl, rfl⟩

theorem updReset_fields (b : HBucket) (xr : Rat) :
    (HBucket.updReset b xr).reset_after = b.reset_after ∧
    (HBucket.updReset b xr).enabled = b.enabled ∧
    (HBucket.updReset b xr).lag = b.lag := by
  unfold HBucket.updReset
  split_ifs <;> exact ⟨rfl, rfl, rfl⟩

theorem updResetAfter_fields (b : HBucket) (x : Rat) :
    (HBucket.updResetAfter b x).reset_after =
      (if x > b.reset_after then x + b.lag else b.reset_after) ∧
    (HBucket.updResetAfter b x).enabled = b.enabled ∧
    (HBucket.updResetAfter b x).lag = b.lag := by
  unfold HBucket.updResetAfter
  split_ifs <;> exact ⟨rfl, rfl, rfl⟩

/-- How update_from moves reset_after on a non-global response carrying
ratelimit headers: the raw value is compared against the stored,
already lag-inflated reset_after, and adopted (plus lag) only when
strictly larger.  The response leaves the bucket enabled and the lag
unchanged. -/
theorem update_from_simple_reset_after (b : HBucket) (x : Rat)
    (hb : b.enabled = true) :
    (HBucket.update_from b (RLHeaders.simple x)).reset_after =
      (if x > b.reset_after then x + b.lag else b.reset_after) ∧
    (HBucket.update_from b (RLHeaders.simple x)).enabled = true ∧
    (HBucket.update_from b (RLHeaders.simple x)).lag = b.lag := by
  obtain ⟨h1r, h1e, h1l⟩ := updHash_fields b "hash"
  obtain ⟨h2r, h2e, h2l⟩ := updLimit_fields (HBucket.updHash b "hash") 1
  obtain ⟨h3r, h3e, h3l⟩ :=
    updRemaining_fields (HBucket.updLimit (HBucket.updHash b "hash") 1) 1
  obtain ⟨h4r, h4e, h4l⟩ :=
    updReset_fields
      (HBucket.updRemaining (HBucket.updLimit (HBucket.updHash b "hash") 1) 1) 0
  have he : HBucket.update_from b (RLHeaders.simple x) =
      HBucket.updResetAfter
        (HBucket.updReset
          (HBucket.updRemaining (HBucket.updLimit (HBucket.updHash b "hash") 1) 1)
          0) x := by
    simp [HBucket.update_from, RLHeaders.simple, hb]
  obtain ⟨h5r, h5e, h5l⟩ :=
    updResetAfter_fields
      (HBucket.updReset
        (HBucket.updRemaining (HBucket.updLimit (HBucket.updHash b "hash") 1) 1)
        0) x
  rw [he, h5r, h5e, h5l, h4r, h4e, h4l, h3r, h3e, h3l, h2r, h2e, h2l, h1r,
      h1e, h1l]
  exact ⟨rfl, hb, rfl⟩

/-- Invariant of a fold of simple responses through update_from: the
final reset_after dominates every raw value seen, never decreases, and
is either untouched or equal to some adopted raw value plus the lag
(added exactly once). -/
theorem applyUpdates_simple_bounds (xs : List Rat) : ∀ (b : HBucket),
    b.enabled = true → 0 ≤ b.lag → (∀ y ∈ xs, 0 < y) →
    (∀ y ∈ xs,
      y ≤ (HBucket.applyUpdates b (xs.map RLHeaders.simple)).reset_after) ∧
    b.reset_after ≤ (HBucket.applyUpdates b (xs.map RLHeaders.simple)).reset_after ∧
    ((HBucket.applyUpdates b (xs.map RLHeaders.simple)).reset_after = b.reset_after ∨
      ∃ y ∈ xs,
        (HBucket.applyUpdates b (xs.map RLHeaders.simple)).reset_after = y + b.lag) := by
  induction xs with
  | nil =>
    intro b hb hl hp
    exact ⟨by simp, by simp [HBucket.applyUpdates], Or.inl rfl⟩
  | cons x t ih =>
    intro b hb hl hp
    obtain ⟨hra, hen, hlag⟩ := update_from_simple_reset_after b x hb
    have happ : HBucket.applyUpdates b ((x :: t).map RLHeaders.simple) =
        HBucket.applyUpdates (HBucket.update_from b (RLHeaders.simple x))
          (t.map RLHeaders.simple) := by
      simp [HBucket.applyUpdates]
    obtain ⟨ht, hmono, hcase⟩ :=
      ih (HBucket.update_from b (RLHeaders.simple x)) hen (hlag ▸ hl)
        (fun y hy => hp y (List.mem_cons_of_mem x hy))
    rw [happ]
    have hx1 : x ≤ (HBucket.update_from b (RLHeaders.simple x)).reset_after := by
      rw [hra]
      split_ifs with hlt
      · linarith
      · linarith
    refine ⟨?_, ?_, ?_⟩
    · intro y hy
      rcases List.mem_cons.mp hy with hy | hy
      · subst hy; exact le_trans hx1 hmono
      · exact ht y hy
    · refine le_trans ?_ hmono
      rw [hra]
      split_ifs with hlt
      · linarith
      · exact le_refl _
    · rcases hcase with hc | ⟨y, hy, hc⟩
      · rw [hc, hra]
        split_ifs with hlt
        · exact Or.inr ⟨x, List.mem_cons_self x t, rfl⟩
        · exact Or.inl rfl
      · exact Or.inr ⟨y, List.mem_cons_of_mem x hy, by rw [hc, hlag]⟩

/-- Claim C5 counterexample: a fresh bucket with lag 2 sees raw
X-RateLimit-Reset-After values 10 then 11 on non-global responses with
ratelimit headers.  The claim predicts reset_after = 11 + 2 = 13 (the
largest raw value plus lag).  The code compares the new raw value 11
against the stored, already lag-inflated 12 (= 10 + 2), so the larger
raw value loses and reset_after stays 12. -/
theorem bucket_reset_after_cex :
    (HBucket.applyUpdates (HBucket.init 2)
      [RLHeaders.simple 10, RLHeaders.simple 11]).reset_after = 12 ∧
    (12 : Rat) ≠ 11 + 2 := by
  have h0e : (HBucket.init 2).enabled = true := rfl
  obtain ⟨h1r, h1e, h1l⟩ :=
    update_from_simple_reset_after (HBucket.init 2) 10 h0e
  rw [show (HBucket.init 2).reset_after = 0 from rfl,
      show (HBucket.init 2).lag = 2 from rfl] at h1r
  norm_num at h1r
  obtain ⟨h2r, h2e, h2l⟩ :=
    update_from_simple_reset_after
      (HBucket.update_from (HBucket.init 2) (RLHeaders.simple 10)) 11 h1e
  rw [show (HBucket.init 2).lag = 2 from rfl] at h1l
  rw [h1r, h1l] at h2r
  norm_num at h2r
  constructor
  · show (HBucket.update_from
      (HBucket.update_from (HBucket.init 2) (RLHeaders.simple 10))
      (RLHeaders.simple 11)).reset_after = 12
    exact h2r
  · norm_num

/-- Claim C5 (amended): after a sequence of non-global responses with
ratelimit headers carrying positive raw reset-after values, the
resulting reset_after dominates every raw value seen and equals some
previously adopted raw value plus the lag, added exactly once (never
compounded); a new larger raw value is adopted only when it exceeds
the stored lag-inflated value, so it does not always win. -/
theorem bucket_reset_after_adopted (lag : Rat) (hlag : 0 ≤ lag) (x : Rat)
    (xs : List Rat) (hpos : ∀ y ∈ x :: xs, 0 < y) :
    (∀ y ∈ x :: xs,
      y ≤ (HBucket.applyUpdates (HBucket.init lag)
            ((x :: xs).map RLHeaders.simple)).reset_after) ∧
    ∃ y ∈ x :: xs,
      (HBucket.applyUpdates (HBucket.init lag)
        ((x :: xs).map RLHeaders.simple)).reset_after = y + lag := by
  obtain ⟨hub, hmono, hcase⟩ :=
    applyUpdates_simple_bounds (x :: xs) (HBucket.init lag) rfl hlag hpos
  refine ⟨hub, ?_⟩
  rcases hcase with hc | ⟨y, hy, hc⟩
  · exfalso
    have hx := hub x (List.mem_cons_self x xs)
    have hx0 := hpos x (List.mem_cons_self x xs)
    rw [hc] at hx
    simp only [HBucket.init] at hx
    linarith
  · exact ⟨y, hy, by simpa [HBucket.init] using hc⟩

/-- Witness for the amended C5 at lag 2 and raw values 10, 11. -/
theorem bucket_reset_after_adopted_witness :
    (0 : Rat) ≤ 2 ∧ (∀ y ∈ [(10 : Rat), 11], 0 < y) ∧
    ((∀ y ∈ [(10 : Rat), 11],
      y ≤ (HBucket.applyUpdates (HBucket.init 2)
            (([(10 : Rat), 11]).map RLHeaders.simple)).reset_after) ∧
    ∃ y ∈ [(10 : Rat), 11],
      (HBucket.applyUpdates (HBucket.init 2)
        (([(10 : Rat), 11]).map RLHeaders.simple)).reset_after = y + 2) :=
  ⟨by norm_num, by norm_num,
    bucket_reset_after_adopted 2 (by norm_num) 10 [11] (by norm_num)⟩

theorem tp_run_cons (s s1 : TimePerState) (e : TPEvent) (evs : List TPEvent)
    (h : TimePer.step s e = some s1) :
    TimePer.run s (e :: evs) = TimePer.run s1 evs := by
  simp [TimePer.run, List.foldl_cons, h]

/-- Resuming every woken waiter, in FIFO order with no interleaving,
decrements remaining once per waiter and empties the woken set; the
pending queue and the limit are untouched. -/
theorem tp_resume_all (fs : List Nat) : ∀ (st : TimePerState), fs.Nodup →
    st.woken = fs →
    ∃ s2, TimePer.run st (fs.map TPEvent.resume) = some s2 ∧
      s2.pending = st.pending ∧ s2.woken = [] ∧
      s2.remaining = st.remaining - fs.length ∧ s2.limit = st.limit := by
  induction fs with
  | nil =>
    intro st hnd hw
    exact ⟨st, rfl, rfl, hw, by simp, rfl⟩
  | cons f t ih =>
    intro st hnd hw
    have hstep : TimePer.step st (TPEvent.resume f) =
        some { st with woken := t, remaining := st.remaining - 1,
                       pending_reset := true } := by
      simp [TimePer.step, hw, List.erase_cons_head]
    obtain ⟨s2, hrun, hp, hwk, hrem, hlim⟩ :=
      ih { st with woken := t, remaining := st.remaining - 1,
                   pending_reset := true } hnd.of_cons rfl
    refine ⟨s2, ?_, hp, hwk, ?_, hlim⟩
    · rw [List.map_cons, tp_run_cons _ _ _ _ hstep]
      exact hrun
    · rw [hrem]
      simp only [List.length_cons]
      push_cast
      ring

/-- Claim C2 counterexample: with limit 1, one acquire exhausts the
budget, a second queues, the timer fires restoring remaining to 1 and
waking the queued future, a third acquire then consumes the fresh
budget, and finally the woken waiter resumes and decrements without
re-checking: remaining reaches -1, and two acquisitions complete in
the period that the reset opened, with limit 1.  This refutes the
claim that the remaining counter never goes below zero and that at
most limit acquisitions complete per period. -/
theorem timePer_negative_remaining_cex :
    (TimePer.run (TimePer.init 1)
      [TPEvent.acquireFast, TPEvent.acquireEnqueue 0, TPEvent.reset,
       TPEvent.acquireFast, TPEvent.resume 0]).map
      (fun s => s.remaining) = some (-1) ∧ (-1 : Int) < 0 := ⟨rfl, by decide⟩

/-- Claim C2 (amended): the reset timer wakes ALL queued waiters - none
re-queue for the next period - and each woken waiter decrements
remaining without re-checking it.  The pending queue never holds more
than limit waiters (its capacity is limit; an over-capacity acquire
raises queue.Full instead of waiting), so when the timer fires with k
queued waiters and no other acquire interleaves before they resume,
remaining ends at limit - k, which is nonnegative; interleaved fresh
acquires can instead drive remaining below zero, as the counterexample
shows. -/
theorem timePer_reset_wakes_all (s : TimePerState) (fs : List Nat)
    (hnd : fs.Nodup) (hp : s.pending = fs) (hw : s.woken = [])
    (hk : fs.length ≤ s.limit) (hr : s.pending_reset = true) :
    ∃ s2, TimePer.run s (TPEvent.reset :: fs.map TPEvent.resume) = some s2 ∧
      s2.pending = [] ∧ s2.woken = [] ∧
      s2.remaining = (s.limit : Int) - fs.length ∧ 0 ≤ s2.remaining := by
  have hstep : TimePer.step s TPEvent.reset =
      some { s with pending_reset := false, remaining := (s.limit : Int),
                    woken := fs, pending := [] } := by
    simp [TimePer.step, hr, hw, hp]
  obtain ⟨s2, hrun, hp2, hw2, hrem, hlim⟩ :=
    tp_resume_all fs
      { s with pending_reset := false, remaining := (s.limit : Int),
               woken := fs, pending := [] } hnd rfl
  refine ⟨s2, ?_, hp2, hw2, ?_, ?_⟩
  · rw [tp_run_cons _ _ _ _ hstep]
    exact hrun
  · exact hrem
  · rw [hrem]
    show (0 : Int) ≤ (s.limit : Int) - (fs.length : Int)
    omega

/-- Witness for the amended C2: two waiters queued at the capacity
limit 2; after the reset and both resumptions remaining is 0. -/
theorem timePer_reset_wakes_all_witness :
    ([7, 8] : List Nat).Nodup ∧
    (∃ s2, TimePer.run
        { limit := 2, remaining := 0, pending := [7, 8], woken := [],
          pending_reset := true }
        (TPEvent.reset :: ([7, 8] : List Nat).map TPEvent.resume) = some s2 ∧
      s2.pending = [] ∧ s2.woken = [] ∧
      s2.remaining = ((2 : Nat) : Int) - (([7, 8] : List Nat).length : Int) ∧
      0 ≤ s2.remaining) :=
  ⟨by decide,
    timePer_reset_wakes_all
      { limit := 2, remaining := 0, pending := [7, 8], woken := [],
        pending_reset := true }
      [7, 8] (by decide) rfl rfl (by decide) rfl⟩

end Arke
